import Mathlib

/-!
Verification of the container-log pipeline in src/main.py.

The pipeline reads a container's output lines, turns each line into a
log event (LogHandler.handle_log), buffers the events in a bounded FIFO
queue of capacity LOGS_QUEUE_SIZE, and a flusher thread
(LogHandler.flush_logs) repeatedly drains the queue and hands each
non-empty drained batch to CloudWatchManager.send_logs.

The concurrent part (reader thread enqueueing while the flusher drains)
is embedded as a small-step relation on a pipeline state; the sequential
leaf operations (DockerManager.kill / DockerManager.remove,
CloudWatchManager.create_log_group / create_log_stream / send_logs) are
embedded as pure functions, with the external docker runtime and the
AWS service responses passed in as explicit parameters.
-/

/-- Queue capacity constant, src/main.py line 18: LOGS_QUEUE_SIZE = 50. -/
def LOGS_QUEUE_SIZE : Nat := 50

/-- A log event as built by LogHandler.handle_log (src/main.py line 133):
a dict with a timestamp in epoch milliseconds and the raw message text. -/
structure LogEvent where
  timestamp : Nat
  message : String
deriving DecidableEq, Repr

/-- LogHandler.handle_log, event construction part (src/main.py line 133):
builds the event from the current time in milliseconds and the line text.
The blocking enqueue of line 134 is the Step.enqueue transition below. -/
def handle_log (now_ms : Nat) (log_message : String) : LogEvent :=
  { timestamp := now_ms, message := log_message }

/-- Combined state of the bounded queue and the flusher, as seen across the
reader thread, the flusher thread and the main thread of src/main.py.
queue is the FIFO contents of log_events_queue (front = oldest);
sent is the list of batches handed to CloudWatchManager.send_logs so far,
in the order flush_logs handed them over; produced is the ghost history of
every event accepted by handle_log, in acceptance order; finished mirrors
the threading.Event of LogHandler (line 114). -/
structure PipelineState where
  queue : List LogEvent
  sent : List (List LogEvent)
  produced : List LogEvent
  finished : Bool
deriving DecidableEq, Repr

/-- State right after LogHandler.__init__ (lines 106-116): empty queue,
nothing sent, nothing produced, finished not set. -/
def initState : PipelineState :=
  { queue := [], sent := [], produced := [], finished := false }

/-- Interleaved small-step semantics of the pipeline threads.

enqueue: handle_log line 134, log_events_queue.put(log_event). The default
blocking put of queue.Queue(maxsize=LOGS_QUEUE_SIZE) only completes while
the queue is below capacity, and appends the event at the back.

flushPos: one iteration of the flush_logs loop body (lines 120-130) whose
qsize snapshot was n > 0. The inner for-loop performs n successful
non-blocking gets (the flusher is the only consumer, so the n events seen
by the snapshot are still at the front), collecting exactly the n oldest
events in FIFO order, and line 128 hands that batch to send_logs.
Enqueues interleaved with the gets commute with them (gets take the
front, puts append at the back), so atomising the cycle at snapshot time
is faithful; n is allowed to be any stale snapshot value up to the
current length.

flushNil: an iteration whose qsize snapshot was 0: it collects nothing
and, by the len check of line 127, sends nothing.

setFinished: LogHandler.stop line 137, finished.set(). -/
inductive Step : PipelineState → PipelineState → Prop
  | enqueue (s : PipelineState) (e : LogEvent)
      (hlen : s.queue.length < LOGS_QUEUE_SIZE) :
      Step s { queue := s.queue ++ [e], sent := s.sent,
               produced := s.produced ++ [e], finished := s.finished }
  | flushPos (s : PipelineState) (n : Nat) (h0 : 0 < n)
      (hn : n ≤ s.queue.length) :
      Step s { queue := s.queue.drop n, sent := s.sent ++ [s.queue.take n],
               produced := s.produced, finished := s.finished }
  | flushNil (s : PipelineState) : Step s s
  | setFinished (s : PipelineState) :
      Step s { queue := s.queue, sent := s.sent,
               produced := s.produced, finished := true }

/-- States reachable from the freshly initialised LogHandler by any
interleaving of reader, flusher and stop steps. -/
inductive Reachable : PipelineState → Prop
  | init : Reachable initState
  | step {s t : PipelineState} : Reachable s → Step s t → Reachable t

/-- First line of spec Scenario A, as an event. -/
def evA : LogEvent := handle_log 0 "a"

/-- Second line of spec Scenario A, as an event. -/
def evB : LogEvent := handle_log 1 "b"

/-- Third line of spec Scenario A, as an event. -/
def evC : LogEvent := handle_log 2 "c"

/-- State after the single enqueue of evA from the initial state. -/
def afterFirstEnqueue : PipelineState :=
  { queue := [evA], sent := [], produced := [evA], finished := false }

/-- Final state of a concrete run of spec Scenario A: three lines
enqueued, drained as the batches [evA, evB] and [evC], finished set. -/
def scenarioAState : PipelineState :=
  { queue := [], sent := [[evA, evB], [evC]], produced := [evA, evB, evC],
    finished := true }

/-- Opaque-to-us docker container reference (self.container when set). -/
structure ContainerHandle where
  id : String
deriving DecidableEq, Repr

/-- A call made by DockerManager into the external docker runtime. -/
inductive RuntimeCall
  | killCall (c : ContainerHandle)
  | removeCall (c : ContainerHandle)
deriving DecidableEq, Repr

/-- DockerManager state: self.container, None until run_container ran
(src/main.py line 24). -/
structure DockerManager where
  container : Option ContainerHandle
deriving DecidableEq, Repr

/-- DockerManager.kill (src/main.py lines 51-54):
if self.container is not None, call self.container.kill() on the runtime.
There is no exception handling in the method, so the runtime outcome is
returned as-is. The result is (outcome, runtime calls made, new state);
the method never mutates self.container. The external runtime is the
parameter runtime, mapping each call to its outcome. -/
def DockerManager.kill (runtime : RuntimeCall → Except String Unit)
    (m : DockerManager) : Except String Unit × List RuntimeCall × DockerManager :=
  match m.container with
  | none => (Except.ok (), [], m)
  | some c => (runtime (RuntimeCall.killCall c), [RuntimeCall.killCall c], m)

/-- DockerManager.remove (src/main.py lines 56-59): same shape as kill,
calling self.container.remove(), again with no exception handling. -/
def DockerManager.remove (runtime : RuntimeCall → Except String Unit)
    (m : DockerManager) : Except String Unit × List RuntimeCall × DockerManager :=
  match m.container with
  | none => (Except.ok (), [], m)
  | some c => (runtime (RuntimeCall.removeCall c), [RuntimeCall.removeCall c], m)

/-- A docker runtime in which every kill/remove call fails, as it does for
a container that already exited or was already removed. -/
def deadRuntime : RuntimeCall → Except String Unit :=
  fun _ => Except.error "409 conflict: container is not running"

/-- Outcome of one boto3 CloudWatch Logs API call, as seen by the except
clauses of src/main.py: normal return, ResourceAlreadyExistsException,
or some other exception. -/
inductive AwsCallResult
  | success
  | resourceAlreadyExistsException
  | otherException (msg : String)
deriving DecidableEq, Repr

/-- CloudWatchManager.create_log_group (src/main.py lines 73-78):
try create_log_group; ResourceAlreadyExistsException is caught and only
logged; any other exception propagates to the caller. -/
def create_log_group (apiResponse : AwsCallResult) : Except String Unit :=
  match apiResponse with
  | AwsCallResult.success => Except.ok ()
  | AwsCallResult.resourceAlreadyExistsException => Except.ok ()
  | AwsCallResult.otherException msg => Except.error msg

/-- CloudWatchManager.create_log_stream (src/main.py lines 80-89): same
handling as create_log_group, for the stream-creation call. -/
def create_log_stream (apiResponse : AwsCallResult) : Except String Unit :=
  match apiResponse with
  | AwsCallResult.success => Except.ok ()
  | AwsCallResult.resourceAlreadyExistsException => Except.ok ()
  | AwsCallResult.otherException msg => Except.error msg

/-- Destination setup as performed inside the try block of main
(src/main.py lines 177-180): create_log_group then create_log_stream;
an exception from either aborts to the top-level handler of line 199. -/
def destinationSetup (groupResp streamResp : AwsCallResult) :
    Except String Unit := do
  create_log_group groupResp
  create_log_stream streamResp

/-- CloudWatchManager.send_logs (src/main.py lines 91-102): one
put_log_events call for the given batch; any exception from it is caught
by the bare except Exception handler, logged and absorbed, so the method
always returns normally. putResult is the outcome of the single
put_log_events attempt; the second component records the put calls made,
as (group, stream, batch) triples: exactly one, never a retry. -/
def send_logs (putResult : Except String Unit)
    (group_name stream_name : String) (log_events : List LogEvent) :
    Except String Unit × List (String × String × List LogEvent) :=
  match putResult with
  | Except.ok _ => (Except.ok (), [(group_name, stream_name, log_events)])
  | Except.error _ => (Except.ok (), [(group_name, stream_name, log_events)])

/-- LogHandler.flush_logs (src/main.py lines 118-130) in the residual
single-threaded situation where no further enqueues arrive (reader done):
while not finished or queue non-empty, drain the whole queue (the qsize
snapshot equals the length, and with the flusher as only consumer all
gets succeed), hand the drained batch to send_logs when non-empty, loop.
After the first cycle the queue stays empty. outcomes gives the
put_log_events outcome of the cycle numbered i; fuel bounds the number of
loop iterations we are willing to unroll, and none means the loop was
still running when the fuel ran out. The returned list collects the put
calls made by send_logs over the run. -/
def flushLoop (group_name stream_name : String)
    (outcomes : Nat → Except String Unit) :
    Nat → Nat → Bool → List LogEvent →
      Option (List (String × String × List LogEvent))
  | _, 0, _, _ => none
  | i, fuel + 1, finished, q =>
    if !finished || !q.isEmpty then
      let calls :=
        if q.isEmpty then []
        else (send_logs (outcomes i) group_name stream_name q).2
      match flushLoop group_name stream_name outcomes (i + 1) fuel finished [] with
      | none => none
      | some rest => some (calls ++ rest)
    else some []

/-- The lifecycle operations main (src/main.py lines 171-200), the
signal handler (187-190) and the methods they call perform, in program
order. startContainerOp and waitContainerOp are the containers.run and
container.wait calls inside run_container (lines 31 and 42);
joinLogThreadOp is the reader join (line 43); setFinishedOp and
joinFlushThreadOp are the body of LogHandler.stop (lines 136-138). -/
inductive MainOp
  | createLogGroupOp
  | createLogStreamOp
  | startFlushThreadOp
  | startContainerOp
  | waitContainerOp
  | joinLogThreadOp
  | killContainerOp
  | setFinishedOp
  | joinFlushThreadOp
  | removeContainerOp
deriving DecidableEq, Repr

/-- Operations of main on the natural-exit path (no signal delivered):
create_log_group (line 177), create_log_stream (line 178), LogHandler
init starts the flush thread (line 116), run_container starts the
container, waits for it and joins the reader (lines 31-43), then
docker_manager.remove() (line 198). log_handler.stop() is called from
shutdown_handler only, so it does not appear on this path. -/
def mainNaturalExit : List MainOp :=
  [MainOp.createLogGroupOp, MainOp.createLogStreamOp,
   MainOp.startFlushThreadOp, MainOp.startContainerOp,
   MainOp.waitContainerOp, MainOp.joinLogThreadOp,
   MainOp.removeContainerOp]

/-- Operations of shutdown_handler (src/main.py lines 187-190):
docker_manager.kill(), then log_handler.stop(), which sets finished and
joins the flush thread (lines 136-138). -/
def shutdownHandlerOps : List MainOp :=
  [MainOp.killContainerOp, MainOp.setFinishedOp, MainOp.joinFlushThreadOp]

/-- Operations of main when SIGINT or SIGTERM arrives while the main
thread is blocked in container.wait(). The handler installed by lines
192-193 runs in the main thread and returns normally; the interrupted
blocking call is then resumed (Python retries interrupted system calls
whose handler returns, PEP 475), so wait completes — the container was
just killed — the reader is joined, run_container returns, and main
continues with docker_manager.remove() on line 198. -/
def mainInterruptDuringWait : List MainOp :=
  [MainOp.createLogGroupOp, MainOp.createLogStreamOp,
   MainOp.startFlushThreadOp, MainOp.startContainerOp]
  ++ shutdownHandlerOps
  ++ [MainOp.waitContainerOp, MainOp.joinLogThreadOp,
      MainOp.removeContainerOp]

/-! ## Helper lemmas -/

/-- send_logs makes exactly one put attempt, with exactly the batch it
was given, whatever the outcome of that attempt. -/
theorem send_logs_snd (putResult : Except String Unit)
    (g st : String) (b : List LogEvent) :
    (send_logs putResult g st b).2 = [(g, st, b)] := by
  cases putResult <;> rfl

/-- With finished never set, the flush_logs loop never terminates, even
from an empty queue: every fuel bound is exhausted. -/
theorem flushLoop_stuck (g st : String) (o : Nat → Except String Unit) :
    ∀ fuel i, flushLoop g st o i fuel false [] = none := by
  intro fuel
  induction fuel with
  | zero => intro i; rfl
  | succ fuel ih =>
      intro i
      simp [flushLoop, ih (i + 1)]

/-- The flush_logs loop behaves the same whatever the put outcomes are:
send_logs absorbs every failure and the loop never looks at its result. -/
theorem flushLoop_outcomes_irrelevant (g st : String) :
    ∀ (fuel : Nat) (o o2 : Nat → Except String Unit) (i i2 : Nat)
      (fl : Bool) (q : List LogEvent),
      flushLoop g st o i fuel fl q = flushLoop g st o2 i2 fuel fl q := by
  intro fuel
  induction fuel with
  | zero => intros; rfl
  | succ fuel ih =>
      intro o o2 i i2 fl q
      simp only [flushLoop, send_logs_snd, ih o o2 (i + 1) (i2 + 1) fl []]

/-- Main safety invariant of the queue/flusher state machine: the batches
handed over so far, concatenated, followed by the queue contents, are
exactly the produced events in order; the queue never exceeds its
capacity; and every handed-over batch is non-empty and within capacity. -/
theorem reachable_invariant {s : PipelineState} (h : Reachable s) :
    s.sent.flatten ++ s.queue = s.produced ∧
    s.queue.length ≤ LOGS_QUEUE_SIZE ∧
    ∀ b ∈ s.sent, b ≠ [] ∧ b.length ≤ LOGS_QUEUE_SIZE := by
  induction h with
  | init =>
      refine ⟨rfl, by simp [initState], ?_⟩
      intro b hb
      simp [initState] at hb
  | @step s t hr hst ih =>
      obtain ⟨ih1, ih2, ih3⟩ := ih
      cases hst with
      | enqueue e hlen =>
          refine ⟨?_, ?_, ?_⟩
          · show s.sent.flatten ++ (s.queue ++ [e]) = s.produced ++ [e]
            rw [← List.append_assoc, ih1]
          · show (s.queue ++ [e]).length ≤ LOGS_QUEUE_SIZE
            rw [List.length_append]
            simpa using hlen
          · exact ih3
      | flushPos n h0 hn =>
          refine ⟨?_, ?_, ?_⟩
          · show (s.sent ++ [s.queue.take n]).flatten ++ s.queue.drop n
              = s.produced
            rw [List.flatten_append]
            simp only [List.flatten_cons, List.flatten_nil, List.append_nil,
              List.append_assoc, List.take_append_drop]
            exact ih1
          · show (s.queue.drop n).length ≤ LOGS_QUEUE_SIZE
            rw [List.length_drop]
            omega
          · intro b hb
            have hb2 : b ∈ s.sent ++ [s.queue.take n] := hb
            rcases List.mem_append.mp hb2 with hb3 | hb3
            · exact ih3 b hb3
            · have hbt : b = s.queue.take n := List.mem_singleton.mp hb3
              have hlb : b.length = n := by
                rw [hbt, List.length_take]
                omega
              constructor
              · intro hnil
                rw [hnil] at hlb
                simp at hlb
                omega
              · omega
      | flushNil => exact ⟨ih1, ih2, ih3⟩
      | setFinished => exact ⟨ih1, ih2, ih3⟩

/-- The Scenario A run is a genuine execution of the state machine:
enqueue a, enqueue b, drain both as one batch, enqueue c, drain it,
set finished. -/
theorem scenarioA_reachable : Reachable scenarioAState := by
  have h0 : Reachable (⟨[], [], [], false⟩ : PipelineState) := Reachable.init
  have h1 : Reachable (⟨[evA], [], [evA], false⟩ : PipelineState) :=
    Reachable.step h0 (Step.enqueue _ evA (by decide))
  have h2 : Reachable (⟨[evA, evB], [], [evA, evB], false⟩ : PipelineState) :=
    Reachable.step h1 (Step.enqueue _ evB (by decide))
  have h3 : Reachable
      (⟨[], [[evA, evB]], [evA, evB], false⟩ : PipelineState) :=
    Reachable.step h2 (Step.flushPos _ 2 (by decide) (by decide))
  have h4 : Reachable
      (⟨[evC], [[evA, evB]], [evA, evB, evC], false⟩ : PipelineState) :=
    Reachable.step h3 (Step.enqueue _ evC (by decide))
  have h5 : Reachable
      (⟨[], [[evA, evB], [evC]], [evA, evB, evC], false⟩ : PipelineState) :=
    Reachable.step h4 (Step.flushPos _ 1 (by decide) (by decide))
  exact Reachable.step h5 (Step.setFinished _)

/-! ## Claim theorems -/

/-- C1: the claim says finished is signalled and the flusher joined on
every termination path; in the code, main never performs stop() on the
natural-exit path (only shutdown_handler does), and with finished never
set the flush_logs loop runs forever even on an empty queue, so the
non-daemon flusher thread keeps the process alive. This theorem records
both halves of that divergence. -/
theorem flusher_never_stopped_on_natural_exit :
    MainOp.setFinishedOp ∉ mainNaturalExit ∧
    MainOp.joinFlushThreadOp ∉ mainNaturalExit ∧
    MainOp.setFinishedOp ∈ mainInterruptDuringWait ∧
    ∀ (g st : String) (o : Nat → Except String Unit) (i fuel : Nat),
      flushLoop g st o i fuel false [] = none := by
  refine ⟨by simp [mainNaturalExit], by simp [mainNaturalExit],
    by simp [mainInterruptDuringWait, shutdownHandlerOps], ?_⟩
  intro g st o i fuel
  exact flushLoop_stuck g st o fuel i

/-- C2: the batches handed to the sink client, concatenated in hand-over
order, followed by whatever is still queued, are exactly the events the
reader enqueued, in their original order; once the queue is drained the
delivered messages are the produced lines verbatim and in order. -/
theorem batches_preserve_order {s : PipelineState} (h : Reachable s) :
    s.sent.flatten ++ s.queue = s.produced ∧
    (s.queue = [] →
      s.sent.flatten.map LogEvent.message = s.produced.map LogEvent.message) := by
  obtain ⟨h1, -, -⟩ := reachable_invariant h
  refine ⟨h1, fun hq => ?_⟩
  rw [← h1, hq, List.append_nil]

/-- Witness for C2 on the concrete Scenario A run. -/
theorem batches_preserve_order_witness :
    scenarioAState.sent.flatten ++ scenarioAState.queue = scenarioAState.produced ∧
    scenarioAState.sent.flatten.map LogEvent.message
      = scenarioAState.produced.map LogEvent.message :=
  ⟨(batches_preserve_order scenarioA_reachable).1,
   (batches_preserve_order scenarioA_reachable).2 rfl⟩

/-- C3: when everything the reader enqueued has been drained, the event
counts of the batches handed to the sink client sum to exactly the
number N of produced lines: nothing enqueued is ever lost by the queue
or the flusher. -/
theorem clean_exit_delivers_all {s : PipelineState} {N : Nat}
    (h : Reachable s) (hq : s.queue = []) (hN : s.produced.length = N) :
    (s.sent.map List.length).sum = N := by
  obtain ⟨h1, -, -⟩ := reachable_invariant h
  have h2 : s.sent.flatten = s.produced := by
    rw [← h1, hq, List.append_nil]
  rw [← hN, ← h2, List.length_flatten]

/-- Witness for C3 on the concrete Scenario A run: three lines in, a
total of three messages handed over. -/
theorem clean_exit_delivers_all_witness :
    (scenarioAState.sent.map List.length).sum = 3 :=
  clean_exit_delivers_all scenarioA_reachable rfl rfl

/-- C4: every batch handed to the sink client is non-empty and holds at
most LOGS_QUEUE_SIZE events; cycles that drained nothing handed over
nothing (no empty batch ever appears in sent). -/
theorem batch_size_bounds {s : PipelineState} (h : Reachable s) :
    ∀ b ∈ s.sent, 1 ≤ b.length ∧ b.length ≤ LOGS_QUEUE_SIZE := by
  intro b hb
  obtain ⟨-, -, h3⟩ := reachable_invariant h
  obtain ⟨hne, hle⟩ := h3 b hb
  exact ⟨List.length_pos.mpr hne, hle⟩

/-- Witness for C4 on the first batch of the Scenario A run. -/
theorem batch_size_bounds_witness :
    1 ≤ ([evA, evB] : List LogEvent).length ∧
    ([evA, evB] : List LogEvent).length ≤ LOGS_QUEUE_SIZE :=
  batch_size_bounds scenarioA_reachable [evA, evB] (by simp [scenarioAState])

/-- C5: any step that accepts a new event (extends the produced history)
is an enqueue that found the queue strictly below capacity, and it places
the event at the back of the queue: a full queue admits no accepting step
(the producer blocks until a drain frees space) and no accepted event is
ever dropped. -/
theorem enqueue_backpressure_no_drop {s t : PipelineState} {e : LogEvent}
    (hst : Step s t) (hacc : t.produced = s.produced ++ [e]) :
    s.queue.length < LOGS_QUEUE_SIZE ∧ t.queue = s.queue ++ [e] := by
  cases hst with
  | enqueue e2 hlen =>
      have he : e2 = e := by
        have h2 : s.produced ++ [e2] = s.produced ++ [e] := hacc
        simpa using h2
      subst he
      exact ⟨hlen, rfl⟩
  | flushPos n h0 hn =>
      exfalso
      have h2 := congrArg List.length hacc
      simp at h2
  | flushNil =>
      exfalso
      have h2 := congrArg List.length hacc
      simp at h2
  | setFinished =>
      exfalso
      have h2 := congrArg List.length hacc
      simp at h2

/-- Witness for C5 on the first enqueue of the Scenario A run. -/
theorem enqueue_backpressure_no_drop_witness :
    initState.queue.length < LOGS_QUEUE_SIZE ∧
    afterFirstEnqueue.queue = initState.queue ++ [evA] :=
  enqueue_backpressure_no_drop
    (Step.enqueue initState evA (by simp [initState, LOGS_QUEUE_SIZE])) rfl

/-- C6 counterexample: on a runner holding a container whose runtime-side
kill fails (already exited or removed), DockerManager.kill returns that
failure unchanged — the error is not suppressed and propagates past the
method, refuting the claim that such failures are absorbed. -/
theorem kill_error_propagates :
    (DockerManager.kill deadRuntime { container := some { id := "c1" } }).1
      = Except.error "409 conflict: container is not running" := rfl

/-- C6 amended: kill is a no-op only when no container was ever started
(the reference is still None); when a container reference exists, kill
makes exactly one runtime kill call and returns the runtime outcome
as-is, error included, leaving its own state unchanged either way. -/
theorem kill_behavior (runtime : RuntimeCall → Except String Unit)
    (m : DockerManager) :
    (m.container = none →
      DockerManager.kill runtime m = (Except.ok (), [], m)) ∧
    (∀ c, m.container = some c →
      DockerManager.kill runtime m
        = (runtime (RuntimeCall.killCall c), [RuntimeCall.killCall c], m)) := by
  constructor
  · intro hnone
    simp [DockerManager.kill, hnone]
  · intro c hsome
    simp [DockerManager.kill, hsome]

/-- Witness for C6 amended at the two concrete runner states. -/
theorem kill_behavior_witness :
    DockerManager.kill deadRuntime { container := none }
      = (Except.ok (), [], { container := none }) ∧
    DockerManager.kill deadRuntime { container := some { id := "c1" } }
      = (deadRuntime (RuntimeCall.killCall { id := "c1" }),
         [RuntimeCall.killCall { id := "c1" }],
         { container := some { id := "c1" } }) :=
  ⟨(kill_behavior deadRuntime { container := none }).1 rfl,
   (kill_behavior deadRuntime { container := some { id := "c1" } }).2
     { id := "c1" } rfl⟩

/-- C7: destination setup is idempotent in the sense the code implements:
whether each creation call reports success or reports that the group or
stream already exists, the setup sequence returns without error, so a
second run of create-group then create-stream (both answered with
ResourceAlreadyExistsException) succeeds exactly like the first. -/
theorem destination_setup_idempotent :
    destinationSetup AwsCallResult.success AwsCallResult.success
      = Except.ok () ∧
    destinationSetup AwsCallResult.resourceAlreadyExistsException
      AwsCallResult.resourceAlreadyExistsException = Except.ok () ∧
    destinationSetup AwsCallResult.resourceAlreadyExistsException
      AwsCallResult.success = Except.ok () ∧
    destinationSetup AwsCallResult.success
      AwsCallResult.resourceAlreadyExistsException = Except.ok () :=
  ⟨rfl, rfl, rfl, rfl⟩

/-- C8: send_logs makes a single put attempt with exactly the batch it was
given, returns normally whatever that attempt's outcome, and the flusher
loop's behaviour is completely independent of the delivery outcomes, so a
failed batch is neither retried nor re-queued and the loop continues
unaffected. -/
theorem send_absorbs_failures_single_attempt :
    (∀ (r : Except String Unit) (g st : String) (b : List LogEvent),
      send_logs r g st b = (Except.ok (), [(g, st, b)])) ∧
    (∀ (g st : String) (fuel : Nat) (o o2 : Nat → Except String Unit)
      (i i2 : Nat) (fl : Bool) (q : List LogEvent),
      flushLoop g st o i fuel fl q = flushLoop g st o2 i2 fuel fl q) := by
  constructor
  · intro r g st b
    cases r <;> rfl
  · intro g st fuel o o2 i i2 fl q
    exact flushLoop_outcomes_irrelevant g st fuel o o2 i i2 fl q

/-- C9 counterexample: the interrupt-path operation trace does contain the
container-removal call — after the signal handler returns, main resumes
and line 198 runs — refuting the claim that removal is skipped on the
interrupt path. -/
theorem remove_called_on_interrupt_path :
    MainOp.removeContainerOp ∈ mainInterruptDuringWait := by
  simp [mainInterruptDuringWait, shutdownHandlerOps]

/-- C9 amended: the container is removed on the interrupt path just as on
the natural-exit path; what distinguishes the interrupt path is the
kill / set-finished / join sequence of the handler, which the natural
path lacks entirely. -/
theorem remove_on_both_paths :
    MainOp.removeContainerOp ∈ mainInterruptDuringWait ∧
    MainOp.removeContainerOp ∈ mainNaturalExit ∧
    MainOp.killContainerOp ∈ mainInterruptDuringWait ∧
    MainOp.killContainerOp ∉ mainNaturalExit := by
  refine ⟨?_, ?_, ?_, ?_⟩ <;>
    simp [mainInterruptDuringWait, shutdownHandlerOps, mainNaturalExit]

/-- C10: with no container ever started (reference still None), kill and
remove both return successfully, make no runtime call at all, and leave
the runner state untouched, for every possible runtime. -/
theorem no_container_noop (runtime : RuntimeCall → Except String Unit) :
    DockerManager.kill runtime { container := none }
      = (Except.ok (), [], { container := none }) ∧
    DockerManager.remove runtime { container := none }
      = (Except.ok (), [], { container := none }) :=
  ⟨rfl, rfl⟩
